import Mathlib

/-!
# Verification of the mele-sap-adapter event-to-BAPI mapping core

A shallow embedding of the SAP integration adapter's domain entities and
orchestration logic:

* `IntegrationEvent` (construction, validation, `fromIntegrationBridgeDto`),
* `SAPRecord.fromIntegrationEvent`,
* `ProcessingResult` (constructor, `success`/`failure` factories,
  `fromRFCResult`, `fromBAPIResult`),
* `SAPRFCService` (`executeBAPI` commit behaviour, `createRecord`,
  `updateRecord`, `deleteRecord`, `readRecord`, `_sanitizeParameters`,
  parameter builders),
* `SAPAdapter.processEvent` with its statistics bookkeeping.

JavaScript dynamic values are embedded as `JsValue`; absent fields are
`Option.none`; JS truthiness and the `a || b` operator are modelled
explicitly.  JS exceptions are modelled with `Except String`.
-/

namespace SapAdapterModel

/-- A JavaScript value as it occurs in the adapter's data bags: strings,
numbers, booleans and null.  (Nested objects do not occur in the data the
claims are about; object-valued bags are embedded as `JsObject`.) -/
inductive JsValue where
  | vStr (s : String)
  | vNum (n : Int)
  | vBool (b : Bool)
  | vNull
deriving DecidableEq, Repr

/-- A JavaScript object, embedded as an association list (JS objects have
unique keys; the embedding only ever builds duplicate-free lists). -/
def JsObject := List (String × JsValue)

instance : DecidableEq JsObject := by
  unfold JsObject
  infer_instance

instance : Repr JsObject := by
  unfold JsObject
  infer_instance

/-- Property access `obj.key`: the value if the key is present, else
`undefined` (`none`). -/
def getField (o : JsObject) (k : String) : Option JsValue :=
  (List.lookup k o)

/-- JS truthiness of a present value: `''`, `0`, `false`, `null` are falsy. -/
def truthyV : JsValue → Bool
  | .vStr s => !(s = "")
  | .vNum n => !(n = 0)
  | .vBool b => b
  | .vNull => false

/-- JS truthiness of a possibly-absent value (`undefined` is falsy). -/
def truthyJ : Option JsValue → Bool
  | none => false
  | some v => truthyV v

/-- JS truthiness of a possibly-absent string. -/
def truthyS : Option String → Bool
  | none => false
  | some s => !(s = "")

/-- `a || b` on possibly-absent strings: `a` when truthy, otherwise `b`
(returned as-is, even when itself falsy — exactly JS `||`). -/
def jsOrS (a b : Option String) : Option String :=
  if truthyS a then a else b

/-- `a || d` where `d` is a present default value (string case). -/
def jsOrStr (a : Option String) (d : String) : String :=
  match a with
  | some s => if s = "" then d else s
  | none => d

/-- `a || d` on possibly-absent JS values with a present default. -/
def jsOrV (a : Option JsValue) (d : JsValue) : JsValue :=
  match a with
  | some v => if truthyV v then v else d
  | none => d

/-- `a || b` on possibly-absent JS values. -/
def jsOrJ (a b : Option JsValue) : Option JsValue :=
  if truthyJ a then a else b

/-- String interpolation of a possibly-absent value: JS renders `undefined`
as the literal text `"undefined"`. -/
def optStr : Option String → String
  | none => "undefined"
  | some s => s

/-- The `EventType` enumeration (`IntegrationEvent.js`). -/
def EventType.getAllTypes : List String :=
  ["Create", "Update", "Delete", "Sync"]

/-- `EventType.isValid`: membership in the closed event-type enumeration. -/
def EventType.isValid (s : String) : Bool :=
  EventType.getAllTypes.contains s

/-- The `EntityType` enumeration (`IntegrationEvent.js`). -/
def EntityType.getAllTypes : List String :=
  ["Product", "User", "Store", "Invoice",
   "Material", "Customer", "Vendor",
   "SalesOrder", "PurchaseOrder",
   "GoodsReceipt", "GoodsIssue", "Inventory",
   "CostCenter", "ProfitCenter", "GLAccount"]

/-- `EntityType.isValid`: membership in the closed entity-type enumeration. -/
def EntityType.isValid (s : String) : Bool :=
  EntityType.getAllTypes.contains s

/-- The static canonical-entity → SAP-entity mapping table. -/
def EntityType.sapEntityMappings : List (String × String) :=
  [("Product", "MATERIAL"), ("User", "USER"), ("Store", "PLANT"),
   ("Invoice", "BILLING_DOCUMENT"), ("Material", "MATERIAL"),
   ("Customer", "CUSTOMER"), ("Vendor", "VENDOR"),
   ("SalesOrder", "SALES_ORDER"), ("PurchaseOrder", "PURCHASE_ORDER"),
   ("GoodsReceipt", "GOODS_RECEIPT"), ("GoodsIssue", "GOODS_ISSUE"),
   ("Inventory", "STOCK"), ("CostCenter", "COST_CENTER"),
   ("ProfitCenter", "PROFIT_CENTER"), ("GLAccount", "GL_ACCOUNT")]

/-- `EntityType.getSAPEntityMapping`: table lookup with identity fallback
(`mappings[entityType] || entityType`). -/
def EntityType.getSAPEntityMapping (s : String) : String :=
  match EntityType.sapEntityMappings.lookup s with
  | some v => v
  | none => s

/-- The event payload (`Payload` entity): a `data` property that may be
absent. -/
structure Payload where
  data : Option JsObject := none
deriving DecidableEq, Repr

/-- The arguments of the `IntegrationEvent` constructor (each field may be
absent, as in the destructured JS parameter object). -/
structure EventCtorArgs where
  eventType : Option String := none
  entityType : Option String := none
  eventId : Option String := none
  timestamp : Option String := none
  sourceSystem : Option JsObject := none
  payload : Option Payload := none
  context : Option JsObject := none
deriving DecidableEq, Repr

/-- The `IntegrationEvent` entity after construction.  `timestamp` is a
plain string because the constructor defaults it
(`timestamp || new Date().toISOString()`); the other fields keep the raw
constructor arguments. -/
structure IntegrationEvent where
  eventType : Option String
  entityType : Option String
  eventId : Option String
  timestamp : String
  sourceSystem : Option JsObject
  payload : Option Payload
  context : Option JsObject
deriving DecidableEq, Repr

/-- The error list built by `IntegrationEvent._validate`, in source order. -/
def eventValidationErrors (eventType entityType eventId : Option String)
    (timestamp : String) (payload : Option Payload) : List String :=
  (if !(truthyS eventType && EventType.isValid (eventType.getD "")) then
    ["Invalid or missing eventType"] else [])
  ++ (if !(truthyS entityType && EntityType.isValid (entityType.getD "")) then
    ["Invalid or missing entityType"] else [])
  ++ (if !truthyS eventId then ["Missing eventId"] else [])
  ++ (if timestamp = "" then ["Missing timestamp"] else [])
  ++ (match payload with
      | some p => if p.data.isNone then ["Payload must contain data property"] else []
      | none => [])

/-- The `IntegrationEvent` constructor: assigns fields (defaulting
`timestamp` to the current ISO timestamp `now`), then runs `_validate`,
which throws when the error list is non-empty. -/
def IntegrationEvent.construct (now : String) (a : EventCtorArgs) :
    Except String IntegrationEvent :=
  let ts := jsOrStr a.timestamp now
  let errs := eventValidationErrors a.eventType a.entityType a.eventId ts a.payload
  if errs.isEmpty then
    .ok { eventType := a.eventType, entityType := a.entityType,
          eventId := a.eventId, timestamp := ts,
          sourceSystem := a.sourceSystem, payload := a.payload,
          context := a.context }
  else
    .error ("Integration Event validation failed: " ++ String.intercalate ", " errs)

/-- The IntegrationBridge DTO: every recognised field may arrive in
lower-camel or upper-camel form; the `u`-prefixed fields are the
upper-camel variants (`EventType`, `EntityType`, `EventId`, `TimeStamp`,
`SourceSystem`, `Payload`, `Context`). -/
structure BridgeDto where
  eventType : Option String := none
  uEventType : Option String := none
  entityType : Option String := none
  uEntityType : Option String := none
  eventId : Option String := none
  uEventId : Option String := none
  timeStamp : Option String := none
  uTimeStamp : Option String := none
  sourceSystem : Option JsObject := none
  uSourceSystem : Option JsObject := none
  payload : Option Payload := none
  uPayload : Option Payload := none
  context : Option JsObject := none
  uContext : Option JsObject := none
deriving DecidableEq, Repr

/-- `a || b` on possibly-absent payload objects (objects are always truthy). -/
def jsOrP (a b : Option Payload) : Option Payload :=
  if a.isSome then a else b

/-- `a || b` on possibly-absent plain objects. -/
def jsOrObj (a b : Option JsObject) : Option JsObject :=
  if a.isSome then a else b

/-- `IntegrationEvent.fromIntegrationBridgeDto`: prefers the lower-camel
field, falls back to the upper-camel one, then runs the constructor. -/
def IntegrationEvent.fromIntegrationBridgeDto (now : String) (dto : BridgeDto) :
    Except String IntegrationEvent :=
  IntegrationEvent.construct now
    { eventType := jsOrS dto.eventType dto.uEventType
      entityType := jsOrS dto.entityType dto.uEntityType
      eventId := jsOrS dto.eventId dto.uEventId
      timestamp := jsOrS dto.timeStamp dto.uTimeStamp
      sourceSystem := jsOrObj dto.sourceSystem dto.uSourceSystem
      payload := jsOrP dto.payload dto.uPayload
      context := jsOrObj dto.context dto.uContext }

/-- The SAP tenant configuration slice consumed by
`SAPRecord.fromIntegrationEvent` (`config.sap` in the adapter). -/
structure SAPConfig where
  client : Option String := none
  companyCode : Option String := none
  plant : Option String := none
  warehouse : Option String := none
  language : Option String := none
deriving DecidableEq, Repr

/-- The `SAPRecord` entity (the fields the claims touch; bookkeeping fields
such as `createdAt`, `version`, `changeNumber` carry no domain logic). -/
structure SAPRecord where
  sapEntityType : Option String
  sapKey : Option JsValue
  entityType : Option String
  integrationEventId : Option String
  data : JsObject
  sapClient : Option String
  companyCode : Option String
  plant : Option String
  warehouse : Option String
  language : Option String
deriving DecidableEq, Repr

/-- `event.payload?.data?.k`: optional-chained field access into the
payload's data bag. -/
def payloadDataField (ev : IntegrationEvent) (k : String) : Option JsValue :=
  match ev.payload with
  | some p =>
    match p.data with
    | some d => getField d k
    | none => none
  | none => none

/-- `event.payload?.data || {}`. -/
def payloadDataOrEmpty (ev : IntegrationEvent) : JsObject :=
  match ev.payload with
  | some p => p.data.getD []
  | none => []

/-- The error list built by `SAPRecord._validate`, in source order.  The
`data` check (`!this.data || typeof this.data !== 'object'`) never fires for
records built by `fromIntegrationEvent`, whose data is always the object
`event.payload?.data || {}`. -/
def recordValidationErrors (sapEntityType : Option String) (sapKey : Option JsValue)
    (entityType sapClient companyCode : Option String) : List String :=
  (if !truthyS sapEntityType then ["Missing sapEntityType"] else [])
  ++ (if !truthyJ sapKey then ["Missing sapKey"] else [])
  ++ (if !truthyS entityType then ["Missing entityType"] else [])
  ++ (if !truthyS sapClient then ["Missing sapClient"] else [])
  ++ (if !truthyS companyCode then ["Missing companyCode"] else [])

/-- `SAPRecord.fromIntegrationEvent`: derives the SAP entity type via the
mapping table, the SAP key from `payload?.data?.id || eventId`, copies the
data bag and the tenant context, then validates.  Accessing `.client` on an
absent configuration throws, as in JS. -/
def SAPRecord.fromIntegrationEventE (ev : IntegrationEvent)
    (cfg? : Option SAPConfig) : Except String SAPRecord :=
  match cfg? with
  | none => .error "TypeError: Cannot read properties of undefined (reading 'client')"
  | some cfg =>
    let sapEntityType := ev.entityType.map EntityType.getSAPEntityMapping
    let sapKey := jsOrJ (payloadDataField ev "id") (ev.eventId.map JsValue.vStr)
    let errs := recordValidationErrors sapEntityType sapKey ev.entityType
      cfg.client cfg.companyCode
    if errs.isEmpty then
      .ok { sapEntityType := sapEntityType, sapKey := sapKey,
            entityType := ev.entityType, integrationEventId := ev.eventId,
            data := payloadDataOrEmpty ev,
            sapClient := cfg.client, companyCode := cfg.companyCode,
            plant := cfg.plant, warehouse := cfg.warehouse,
            language := some (jsOrStr cfg.language "EN") }
    else
      .error ("SAP Record validation failed: " ++ String.intercalate ", " errs)

/-- A BAPI/RFC return message.  `TYPE`/`ID`/`NUMBER`/`MESSAGE` is the usual
shape; `MESSAGE_TYPE`/`MESSAGE_ID`/`MESSAGE_NUMBER` is the alternate field
naming some BAPIs use. -/
structure BapiMessage where
  TYPE : Option String := none
  ID : Option String := none
  NUMBER : Option String := none
  MESSAGE : Option String := none
  MESSAGE_TYPE : Option String := none
  MESSAGE_ID : Option String := none
  MESSAGE_NUMBER : Option String := none
deriving DecidableEq, Repr

/-- A BAPI `RETURN` structure: either an array of messages or a bare single
message object. -/
inductive JsMessages where
  | arr (l : List BapiMessage)
  | single (m : BapiMessage)
deriving DecidableEq, Repr

/-- `Array.isArray(x) ? x : [x]`. -/
def normalizeMsgs : JsMessages → List BapiMessage
  | .arr l => l
  | .single m => [m]

/-- A raw BAPI response as `ProcessingResult.fromBAPIResult` and
`executeBAPI` inspect it. -/
structure BAPIResult where
  RETURN : Option JsMessages := none
  ET_RETURN : Option JsMessages := none
  MATERIAL : Option String := none
  CUSTOMER : Option String := none
  VENDOR : Option String := none
  SALESDOCUMENT : Option String := none
  PURCHASEORDER : Option String := none
  DOCUMENT_NUMBER : Option String := none
  FUNCTION_NAME : Option String := none
deriving DecidableEq, Repr

/-- A raw RFC response as `ProcessingResult.fromRFCResult` inspects it
(`ET_RETURN`, when present, is used as an array directly). -/
structure RFCResult where
  ET_RETURN : Option (List BapiMessage) := none
  FUNCTION_NAME : Option String := none
deriving DecidableEq, Repr

/-- `bapiResult.RETURN || bapiResult.ET_RETURN || []` (message structures
are objects, hence truthy whenever present). -/
def bapiReturnMessages (r : BAPIResult) : JsMessages :=
  match r.RETURN with
  | some ms => ms
  | none =>
    match r.ET_RETURN with
    | some ms => ms
    | none => .arr []

/-- The normalized message list `fromBAPIResult` works on. -/
def bapiMessageList (r : BAPIResult) : List BapiMessage :=
  normalizeMsgs (bapiReturnMessages r)

/-- Severity Error or Abort in the standard `TYPE` field. -/
def msgErrAbort (m : BapiMessage) : Bool :=
  m.TYPE == some "E" || m.TYPE == some "A"

/-- The failing-message predicate of `fromBAPIResult`:
`msg.TYPE === 'E' || msg.TYPE === 'A' || msg.MESSAGE_TYPE === 'E'`. -/
def bapiOffending (m : BapiMessage) : Bool :=
  m.TYPE == some "E" || m.TYPE == some "A" || m.MESSAGE_TYPE == some "E"

/-- Warning severity (`msg.TYPE === 'W'`). -/
def msgWarning (m : BapiMessage) : Bool :=
  m.TYPE == some "W"

/-- The per-message error text of `fromBAPIResult`:
`` `${msg.ID || msg.MESSAGE_ID}${msg.NUMBER || msg.MESSAGE_NUMBER}: ${msg.MESSAGE}` ``. -/
def formatBAPIMsg (m : BapiMessage) : String :=
  optStr (jsOrS m.ID m.MESSAGE_ID) ++ optStr (jsOrS m.NUMBER m.MESSAGE_NUMBER)
    ++ ": " ++ optStr m.MESSAGE

/-- The per-message error text of `fromRFCResult`:
`` `${msg.ID}${msg.NUMBER}: ${msg.MESSAGE}` ``. -/
def formatRFCMsg (m : BapiMessage) : String :=
  optStr m.ID ++ optStr m.NUMBER ++ ": " ++ optStr m.MESSAGE

/-- The business-object key extraction of `fromBAPIResult`:
`bapiResult.MATERIAL || CUSTOMER || VENDOR || SALESDOCUMENT || PURCHASEORDER || DOCUMENT_NUMBER`. -/
def objectKeyOf (r : BAPIResult) : Option String :=
  jsOrS r.MATERIAL (jsOrS r.CUSTOMER (jsOrS r.VENDOR
    (jsOrS r.SALESDOCUMENT (jsOrS r.PURCHASEORDER r.DOCUMENT_NUMBER))))

/-- The opaque raw remote response echoed in `ProcessingResult.sapResult`. -/
inductive SapRaw where
  | bapi (r : BAPIResult)
  | rfc (r : RFCResult)
deriving DecidableEq, Repr

/-- The open metadata bag a `ProcessingResult` carries.  Every field is a
JS object property that a particular factory may or may not set. -/
structure Metadata where
  objectKey : Option String := none
  warnings : Option (List BapiMessage) := none
  bapiMessages : Option (List BapiMessage) := none
  bapiFunction : Option String := none
  rfcMessages : Option (List BapiMessage) := none
  rfcFunction : Option String := none
  sapMessages : Option (List BapiMessage) := none
  processingTimeMs : Option Int := none
deriving DecidableEq, Repr

/-- The `ProcessingResult` entity.  `timestamp` keeps the constructor
argument (callers pass none, standing for the construction wall-clock
default, which no claim concerns). -/
structure ProcessingResult where
  success : Bool
  eventId : Option String
  entityType : Option String
  operation : Option String
  sapResult : Option SapRaw
  message : Option String
  error : Option String
  metadata : Metadata
  timestamp : Option String
  processingTime : Option Int
  retryable : Bool
deriving DecidableEq, Repr

/-- The arguments of the `ProcessingResult` constructor (destructured JS
parameter object; `none` models an omitted property, picking up the JS
default — in particular `retryable = true` and `metadata = {}`). -/
structure ResultArgs where
  success : Bool
  eventId : Option String := none
  entityType : Option String := none
  operation : Option String := none
  sapResult : Option SapRaw := none
  message : Option String := none
  error : Option String := none
  metadata : Option Metadata := none
  timestamp : Option String := none
  processingTime : Option Int := none
  retryable : Option Bool := none
deriving DecidableEq, Repr

/-- The `ProcessingResult` constructor: fields verbatim, with the defaults
`metadata = metadata || {}` and `retryable = true` when omitted. -/
def ProcessingResult.construct (a : ResultArgs) : ProcessingResult :=
  { success := a.success, eventId := a.eventId, entityType := a.entityType,
    operation := a.operation, sapResult := a.sapResult, message := a.message,
    error := a.error, metadata := a.metadata.getD {},
    timestamp := a.timestamp, processingTime := a.processingTime,
    retryable := a.retryable.getD true }

/-- The static factory `ProcessingResult.success`: a successful outcome
with `retryable: false` and a canned message. -/
def ProcessingResult.mkSuccess (eventId entityType : Option String)
    (operation : String) (sapResult : Option SapRaw) (metadata : Metadata) :
    ProcessingResult :=
  ProcessingResult.construct
    { success := true, eventId := eventId, entityType := entityType,
      operation := some operation, sapResult := sapResult,
      message := some ("Successfully processed " ++ operation ++ " for "
        ++ optStr entityType),
      metadata := some metadata, retryable := some false }

/-- The static factory `ProcessingResult.failure`: a failed outcome whose
`retryable` parameter defaults to `true` when the caller omits it. -/
def ProcessingResult.mkFailure (eventId entityType : Option String)
    (operation : String) (error : Option String) (retryable : Option Bool)
    (metadata : Metadata) : ProcessingResult :=
  let errorMessage := optStr error
  ProcessingResult.construct
    { success := false, eventId := eventId, entityType := entityType,
      operation := some operation, error := some errorMessage,
      message := some ("Failed to process " ++ operation ++ " for "
        ++ optStr entityType ++ ": " ++ errorMessage),
      metadata := some metadata, retryable := some (retryable.getD true) }

/-- `ProcessingResult.fromRFCResult`: fails when `ET_RETURN` is present and
contains a `TYPE` `'E'` or `'A'` message; otherwise succeeds, separating
`TYPE` `'W'` messages into `metadata.warnings`. -/
def ProcessingResult.fromRFCResult (eventId entityType : Option String)
    (operation : String) (r : RFCResult) : ProcessingResult :=
  let hasErrors :=
    match r.ET_RETURN with
    | none => false
    | some l => l.any msgErrAbort
  if hasErrors then
    let errorMessages := String.intercalate "; "
      (((r.ET_RETURN.getD []).filter msgErrAbort).map formatRFCMsg)
    ProcessingResult.mkFailure eventId entityType operation
      (some ("SAP RFC Error: " ++ errorMessages)) (some true)
      { rfcMessages := some (r.ET_RETURN.getD []),
        rfcFunction := r.FUNCTION_NAME }
  else
    ProcessingResult.mkSuccess eventId entityType operation (some (.rfc r))
      { warnings := some ((r.ET_RETURN.getD []).filter msgWarning),
        rfcFunction := r.FUNCTION_NAME,
        sapMessages := some (r.ET_RETURN.getD []) }

/-- `ProcessingResult.fromBAPIResult`: normalizes the message list from
`RETURN || ET_RETURN || []`, fails when some message is offending
(`TYPE` `'E'`/`'A'` or `MESSAGE_TYPE` `'E'`), otherwise succeeds and
extracts the business-object key. -/
def ProcessingResult.fromBAPIResult (eventId entityType : Option String)
    (operation : String) (r : BAPIResult) : ProcessingResult :=
  let messages := bapiMessageList r
  if messages.any bapiOffending then
    let errorMessages := String.intercalate "; "
      ((messages.filter bapiOffending).map formatBAPIMsg)
    ProcessingResult.mkFailure eventId entityType operation
      (some ("SAP BAPI Error: " ++ errorMessages)) (some true)
      { bapiMessages := some messages, bapiFunction := r.FUNCTION_NAME }
  else
    ProcessingResult.mkSuccess eventId entityType operation (some (.bapi r))
      { objectKey := objectKeyOf r, bapiMessages := some messages,
        bapiFunction := r.FUNCTION_NAME }

/-- `ProcessingResult.setProcessingTime`: records the elapsed time on the
result and in `metadata.processingTimeMs`. -/
def ProcessingResult.setProcessingTime (r : ProcessingResult) (elapsed : Int) :
    ProcessingResult :=
  { r with processingTime := some elapsed,
           metadata := { r.metadata with processingTimeMs := some elapsed } }

/-- `SAPRFCService._hasBAPIErrors`: normalizes to a list and looks for a
`TYPE` `'E'` or `'A'` message. -/
def hasBAPIErrors (ms : JsMessages) : Bool :=
  (normalizeMsgs ms).any msgErrAbort

/-- The commit condition of `SAPRFCService.executeBAPI`:
`options.commitWork !== false && result.RETURN && !this._hasBAPIErrors(result.RETURN)`.
Note the middle conjunct: an absent `RETURN` suppresses the commit. -/
def commitCondition (commitWork : Option Bool) (r : BAPIResult) : Bool :=
  (commitWork != some false)
    && (match r.RETURN with
        | none => false
        | some ms => !hasBAPIErrors ms)

/-- `SAPRFCService.executeBAPI` after the primary call returned `r`:
issues the follow-up `BAPI_TRANSACTION_COMMIT` exactly when the commit
condition holds, swallows any commit failure (`commitFails` is the
behaviour of that follow-up call), and returns the primary result either
way.  The second component records whether the commit call was issued. -/
def executeBAPIAfter (commitWork : Option Bool) (r : BAPIResult)
    (_commitFails : Bool) : BAPIResult × Bool :=
  if commitCondition commitWork r then
    -- the commit call runs inside try/catch; its failure is only logged
    (r, true)
  else
    (r, false)

/-- `String.prototype.padStart(n, c)`. -/
def padStart (s : String) (n : Nat) (c : Char) : String :=
  String.mk (List.replicate (n - s.length) c) ++ s

/-- The current date, as the components `new Date()` would render into an
ISO timestamp (month and day already 1-based and zero-padded by
`toISOString`). -/
structure Today where
  y : Nat
  m : Nat
  d : Nat
deriving DecidableEq, Repr

/-- The deletion date: source takes `new Date().toISOString()`, keeps the
part before `T` (the `YYYY-MM-DD` date) and deletes every dash, i.e. the
zero-padded components concatenated (digit strings contain no dash, so the
dash removal deletes exactly the two separators). -/
def sapCompactDate (t : Today) : String :=
  padStart (Nat.repr t.y) 4 '0' ++ padStart (Nat.repr t.m) 2 '0'
    ++ padStart (Nat.repr t.d) 2 '0'

/-- The data bag `deleteRecord` injects when flagging a record for
deletion. -/
def deletionData (t : Today) : JsObject :=
  [("DELETION_FLAG", JsValue.vStr "X"),
   ("DELETION_DATE", JsValue.vStr (sapCompactDate t))]

/-- `HEADDATA` of `BAPI_MATERIAL_SAVEDATA` create parameters. -/
structure MaterialHeadData where
  MATERIAL : JsValue
  IND_SECTOR : JsValue
  MATL_TYPE : JsValue
  BASIC_VIEW : JsValue
deriving DecidableEq, Repr

/-- `CLIENTDATA`/`CLIENTDATAX` of the material create parameters. -/
structure MaterialClientData where
  BASE_UOM : JsValue
deriving DecidableEq, Repr

/-- The material create parameter bag. -/
structure MaterialCreateParams where
  HEADDATA : MaterialHeadData
  CLIENTDATA : MaterialClientData
  CLIENTDATAX : MaterialClientData
deriving DecidableEq, Repr

/-- `SAPRFCService._buildMaterialCreateParameters`: reads the SAP-caps
fields `MATERIAL`, `INDUSTRY_SECTOR`, `MATERIAL_TYPE`, `BASE_UNIT` off the
incoming data bag, with defaults. -/
def buildMaterialCreateParameters (data : JsObject) : MaterialCreateParams :=
  { HEADDATA :=
      { MATERIAL := jsOrV (getField data "MATERIAL") (.vStr "")
        IND_SECTOR := jsOrV (getField data "INDUSTRY_SECTOR") (.vStr "M")
        MATL_TYPE := jsOrV (getField data "MATERIAL_TYPE") (.vStr "FERT")
        BASIC_VIEW := .vStr "X" }
    CLIENTDATA := { BASE_UOM := jsOrV (getField data "BASE_UNIT") (.vStr "EA") }
    CLIENTDATAX := { BASE_UOM := .vStr "X" } }

/-- `HEADDATA` of the material update parameters. -/
structure MaterialUpdateHead where
  MATERIAL : Option JsValue
deriving DecidableEq, Repr

/-- The material update parameter bag. -/
structure MaterialUpdateParams where
  HEADDATA : MaterialUpdateHead
  CLIENTDATA : JsObject
  CLIENTDATAX : JsObject
deriving DecidableEq, Repr

/-- `SAPRFCService._buildUpdateFlags`: one `'X'` marker per key of the
update payload. -/
def buildUpdateFlags (data : JsObject) : JsObject :=
  data.map (fun p => (p.1, JsValue.vStr "X"))

/-- `SAPRFCService._buildMaterialUpdateParameters`. -/
def buildMaterialUpdateParameters (sapKey : Option JsValue) (data : JsObject) :
    MaterialUpdateParams :=
  { HEADDATA := { MATERIAL := sapKey }
    CLIENTDATA := data
    CLIENTDATAX := buildUpdateFlags data }

/-- The remote-call transport as the service methods consume it: each BAPI
name resolves to a raw response, or to a thrown transport error.  (The
parameter bag does not influence which oracle response arrives; the built
bags are stated about separately.) -/
def CallEnv := String → Except String BAPIResult

/-- The JS `TypeError` message raised when a parameter-builder method the
class never defines is invoked. -/
def missingBuilder (name : String) : String :=
  "TypeError: this." ++ name ++ " is not a function"

/-- `SAPRFCService.createRecord`: picks the create BAPI per entity type and
normalizes via `fromBAPIResult`; everything runs inside try/catch, so a
thrown transport error, a missing-builder `TypeError` (the vendor, sales
order and purchase order create builders are not defined on the class) or
an unsupported entity type all yield a failure result. -/
def SAPRFCService.createRecord (call : CallEnv) (entityType : String)
    (data : JsObject) : ProcessingResult :=
  let et := entityType.toUpper
  if et = "MATERIAL" then
    let _params := buildMaterialCreateParameters data
    match call "BAPI_MATERIAL_SAVEDATA" with
    | .ok r => ProcessingResult.fromBAPIResult (some "") (some entityType) "CREATE" r
    | .error e =>
      ProcessingResult.mkFailure (some "") (some entityType) "CREATE" (some e) none {}
  else if et = "CUSTOMER" then
    match call "BAPI_CUSTOMER_CREATEFROMDATA1" with
    | .ok r => ProcessingResult.fromBAPIResult (some "") (some entityType) "CREATE" r
    | .error e =>
      ProcessingResult.mkFailure (some "") (some entityType) "CREATE" (some e) none {}
  else if et = "VENDOR" then
    ProcessingResult.mkFailure (some "") (some entityType) "CREATE"
      (some (missingBuilder "_buildVendorCreateParameters")) none {}
  else if et = "SALES_ORDER" then
    ProcessingResult.mkFailure (some "") (some entityType) "CREATE"
      (some (missingBuilder "_buildSalesOrderCreateParameters")) none {}
  else if et = "PURCHASE_ORDER" then
    ProcessingResult.mkFailure (some "") (some entityType) "CREATE"
      (some (missingBuilder "_buildPurchaseOrderCreateParameters")) none {}
  else
    ProcessingResult.mkFailure (some "") (some entityType) "CREATE"
      (some ("Unsupported entity type for creation: " ++ entityType)) none {}

/-- `SAPRFCService.updateRecord`: same shape for the update BAPIs (only the
material update builder exists on the class). -/
def SAPRFCService.updateRecord (call : CallEnv) (entityType : String)
    (sapKey : Option JsValue) (data : JsObject) : ProcessingResult :=
  let et := entityType.toUpper
  if et = "MATERIAL" then
    let _params := buildMaterialUpdateParameters sapKey data
    match call "BAPI_MATERIAL_SAVEDATA" with
    | .ok r => ProcessingResult.fromBAPIResult (some "") (some entityType) "UPDATE" r
    | .error e =>
      ProcessingResult.mkFailure (some "") (some entityType) "UPDATE" (some e) none {}
  else if et = "CUSTOMER" then
    ProcessingResult.mkFailure (some "") (some entityType) "UPDATE"
      (some (missingBuilder "_buildCustomerUpdateParameters")) none {}
  else if et = "VENDOR" then
    ProcessingResult.mkFailure (some "") (some entityType) "UPDATE"
      (some (missingBuilder "_buildVendorUpdateParameters")) none {}
  else if et = "SALES_ORDER" then
    ProcessingResult.mkFailure (some "") (some entityType) "UPDATE"
      (some (missingBuilder "_buildSalesOrderUpdateParameters")) none {}
  else
    ProcessingResult.mkFailure (some "") (some entityType) "UPDATE"
      (some ("Unsupported entity type for update: " ++ entityType)) none {}

/-- The deletion options (`options.flagForDeletion !== false` means "flag,
do not physically delete"). -/
structure DeleteOptions where
  flagForDeletion : Option Bool := none
deriving DecidableEq, Repr

/-- `SAPRFCService.deleteRecord`: unless physical deletion is explicitly
requested, delegates to `updateRecord` with the deletion-flag/date bag;
otherwise the thrown "not supported" error is caught into a failure
result. -/
def SAPRFCService.deleteRecord (call : CallEnv) (t : Today)
    (entityType : String) (sapKey : Option JsValue) (opts : DeleteOptions) :
    ProcessingResult :=
  if opts.flagForDeletion != some false then
    SAPRFCService.updateRecord call entityType sapKey (deletionData t)
  else
    ProcessingResult.mkFailure (some "") (some entityType) "DELETE"
      (some ("Physical deletion not supported for entity type: " ++ entityType))
      none {}

/-- `SAPRFCService.readRecord`: read BAPIs per entity type (all normalized
through `fromBAPIResult`, with commits disabled — irrelevant to the
response). -/
def SAPRFCService.readRecord (call : CallEnv) (entityType : String) :
    ProcessingResult :=
  let et := entityType.toUpper
  let onName := fun (name : String) =>
    match call name with
    | .ok r => ProcessingResult.fromBAPIResult (some "") (some entityType) "READ" r
    | .error e =>
      ProcessingResult.mkFailure (some "") (some entityType) "READ" (some e) none {}
  if et = "MATERIAL" then onName "BAPI_MATERIAL_GET_DETAIL"
  else if et = "CUSTOMER" then onName "BAPI_CUSTOMER_GETDETAIL2"
  else if et = "VENDOR" then onName "BAPI_VENDOR_GETDETAIL"
  else if et = "SALES_ORDER" then onName "BAPI_SALESORDER_GETDETAIL"
  else
    ProcessingResult.mkFailure (some "") (some entityType) "READ"
      (some ("Unsupported entity type for read: " ++ entityType)) none {}

/-- The sensitive-field list of `SAPRFCService._sanitizeParameters`. -/
def sensitiveFields : List String :=
  ["passwd", "password", "pwd", "secret", "token"]

/-- `String.prototype.includes(pat)` for a non-empty pattern: `splitOn`
yields more than one chunk exactly when the pattern occurs. -/
def jsIncludes (s pat : String) : Bool :=
  (s.splitOn pat).length != 1

/-- Whether a parameter key is sensitive:
`sensitiveFields.some(field => key.toLowerCase().includes(field))`. -/
def isSensitiveKey (k : String) : Bool :=
  sensitiveFields.any (fun f => jsIncludes k.toLower f)

/-- Overwriting one key of the (copied) bag with `'***'`. -/
def sanitizeSet (ps : JsObject) (k : String) : JsObject :=
  ps.map (fun p => if p.1 = k then (p.1, JsValue.vStr "***") else p)

/-- `SAPRFCService._sanitizeParameters`: spread-copy the bag, then walk its
keys and mask each sensitive one. -/
def sanitizeParameters (ps : JsObject) : JsObject :=
  (ps.map Prod.fst).foldl
    (fun acc k => if isSensitiveKey k then sanitizeSet acc k else acc) ps

/-- The adapter's aggregate statistics (`this.stats`); the average is
recomputed exactly as `totalProcessingTime / eventsProcessed` on every
update, embedded over `ℚ`. -/
structure AdapterStats where
  eventsProcessed : Nat
  eventsSuccessful : Nat
  eventsFailed : Nat
  totalProcessingTime : Int
  averageProcessingTime : ℚ
deriving DecidableEq, Repr

/-- The zero statistics of a freshly constructed adapter. -/
def initialStats : AdapterStats :=
  { eventsProcessed := 0, eventsSuccessful := 0, eventsFailed := 0,
    totalProcessingTime := 0, averageProcessingTime := 0 }

/-- `SAPAdapter._updateStats`. -/
def updateStats (s : AdapterStats) (processingTime : Int) (success : Bool) :
    AdapterStats :=
  let processed := s.eventsProcessed + 1
  let total := s.totalProcessingTime + processingTime
  { eventsProcessed := processed
    eventsSuccessful := if success then s.eventsSuccessful + 1 else s.eventsSuccessful
    eventsFailed := if success then s.eventsFailed else s.eventsFailed + 1
    totalProcessingTime := total
    averageProcessingTime := (total : ℚ) / (processed : ℚ) }

/-- The statistics invariant of claim C9. -/
def statsInvariant (s : AdapterStats) : Prop :=
  s.eventsProcessed = s.eventsSuccessful + s.eventsFailed
    ∧ (0 < s.eventsProcessed →
        s.averageProcessingTime
          = (s.totalProcessingTime : ℚ) / (s.eventsProcessed : ℚ))

/-- The adapter's collaborators as `processEvent` reaches them: the SAP
tenant configuration (`this.config.sap`), the remote-call transport, and
the registered observers (each observer invocation either returns or
throws). -/
structure AdapterEnv where
  sap : Option SAPConfig
  call : CallEnv
  handlers : List (Except String Unit)

/-- `SAPAdapter._handleSyncEvent`: read, then create when the read failed,
else update unconditionally. -/
def handleSyncEvent (call : CallEnv) (sr : SAPRecord) : ProcessingResult :=
  let readResult := SAPRFCService.readRecord call (sr.sapEntityType.getD "")
  if !readResult.success then
    SAPRFCService.createRecord call (sr.sapEntityType.getD "") sr.data
  else
    SAPRFCService.updateRecord call (sr.sapEntityType.getD "") sr.sapKey sr.data

/-- The event-type dispatch of `processEvent` (step 3): the four known
event types go to their service path (each service method catches its own
errors); any other event type throws. -/
def dispatchEvent (env : AdapterEnv) (t : Today) (ev : IntegrationEvent)
    (sr : SAPRecord) : Except String ProcessingResult :=
  if ev.eventType = some "Create" then
    .ok (SAPRFCService.createRecord env.call (sr.sapEntityType.getD "") sr.data)
  else if ev.eventType = some "Update" then
    .ok (SAPRFCService.updateRecord env.call (sr.sapEntityType.getD "")
      sr.sapKey sr.data)
  else if ev.eventType = some "Delete" then
    .ok (SAPRFCService.deleteRecord env.call t (sr.sapEntityType.getD "")
      sr.sapKey {})
  else if ev.eventType = some "Sync" then
    .ok (handleSyncEvent env.call sr)
  else
    .error ("Unsupported event type: " ++ optStr ev.eventType)

/-- Accessing properties of a `null`/`undefined` raw payload throws. -/
def nullDtoError : String :=
  "TypeError: Cannot read properties of null (reading 'eventType')"

/-- The `TypeError` the catch block itself raises when it evaluates
`eventData.eventId` on a `null`/`undefined` payload. -/
def nullDtoLogError : String :=
  "TypeError: Cannot read properties of null (reading 'eventId')"

/-- `IntegrationEvent.fromIntegrationBridgeDto` on a possibly-null raw
payload. -/
def fromBridgeDtoE (now : String) (dto? : Option BridgeDto) :
    Except String IntegrationEvent :=
  match dto? with
  | none => .error nullDtoError
  | some dto => IntegrationEvent.fromIntegrationBridgeDto now dto

/-- The body of `processEvent`'s try block up to the point where a result
exists: build the event, build the SAP record, dispatch.  Reads only the
configuration and the transport off the environment — never the
observers. -/
def attemptProcess (env : AdapterEnv) (t : Today) (now : String)
    (dto? : Option BridgeDto) : Except String ProcessingResult := do
  let ev ← fromBridgeDtoE now dto?
  let sr ← SAPRecord.fromIntegrationEventE ev env.sap
  dispatchEvent env t ev sr

/-- `SAPAdapter._notifyEventHandlers`: every observer is invoked inside its
own try/catch; a throwing observer only contributes a logged error
message. -/
def notifyEventHandlers (hs : List (Except String Unit)) : List (Option String) :=
  hs.map (fun h =>
    match h with
    | .ok _ => none
    | .error e => some e)

/-- `SAPAdapter.processEvent`: on a successful try block, update the
statistics with the outcome's success flag, stamp the processing time and
notify the observers; on a caught error, update the statistics as a
failure and build a failure outcome from the raw payload's fields — which
itself throws when the raw payload is `null`.  Returns the outcome, the
updated statistics and the observer log. -/
def SAPAdapter.processEvent (env : AdapterEnv) (t : Today) (now : String)
    (elapsed : Int) (dto? : Option BridgeDto) (stats : AdapterStats) :
    Except String (ProcessingResult × AdapterStats × List (Option String)) :=
  match attemptProcess env t now dto? with
  | .ok r =>
    let stats2 := updateStats stats elapsed r.success
    .ok (r.setProcessingTime elapsed, stats2, notifyEventHandlers env.handlers)
  | .error e =>
    let stats2 := updateStats stats elapsed false
    match dto? with
    | none => .error nullDtoLogError
    | some dto =>
      let r := ProcessingResult.mkFailure (jsOrS dto.eventId dto.uEventId)
        (jsOrS dto.entityType dto.uEntityType) "PROCESS" (some e) none {}
      .ok (r.setProcessingTime elapsed, stats2, [])

/-- The observable part of a `processEvent` run that the claims compare
across observer configurations: the outcome and the statistics, without
the observer log. -/
def resultAndStats
    (x : Except String (ProcessingResult × AdapterStats × List (Option String))) :
    Except String (ProcessingResult × AdapterStats) :=
  x.map (fun p => (p.1, p.2.1))

/-! ## Concrete inputs used by witnesses and counterexamples -/

/-- A fixed current ISO timestamp (the value of `new Date().toISOString()`
at construction time). -/
def c1Now : String := "2024-01-01T00:00:00.000Z"

/-- A raw payload that is valid in every respect except that `timeStamp`
is absent (in both casings). -/
def c1NoTimestampDto : BridgeDto :=
  { eventType := some "Create", entityType := some "Product",
    eventId := some "e1",
    payload := some { data := some [("id", JsValue.vStr "MAT001")] } }

/-- Fully valid constructor arguments. -/
def c1ValidArgs : EventCtorArgs :=
  { eventType := some "Update", entityType := some "Customer",
    eventId := some "e2", timestamp := some "2024-02-02T00:00:00Z",
    payload := some { data := some [] } }

/-- The data bag of concrete scenario 1. -/
def c2Data : JsObject :=
  [("id", JsValue.vStr "MAT001"), ("name", JsValue.vStr "Widget"),
   ("baseUnit", JsValue.vStr "EA")]

/-- Scenario 1's data bag with a base unit different from the `'EA'`
default. -/
def c2DataKG : JsObject :=
  [("id", JsValue.vStr "MAT001"), ("name", JsValue.vStr "Widget"),
   ("baseUnit", JsValue.vStr "KG")]

/-- The raw payload of concrete scenario 1. -/
def c2Dto : BridgeDto :=
  { eventType := some "Create", entityType := some "Product",
    eventId := some "e1", timeStamp := some "2024-01-01T00:00:00Z",
    payload := some { data := some c2Data } }

/-- A minimal valid SAP tenant configuration. -/
def c2Config : SAPConfig := { client := some "100", companyCode := some "1000" }

/-- A placeholder event (used only as a `getD` default). -/
def emptyEvent : IntegrationEvent :=
  { eventType := none, entityType := none, eventId := none, timestamp := "",
    sourceSystem := none, payload := none, context := none }

/-- The canonical event built from scenario 1's payload. -/
def c2Event : IntegrationEvent :=
  (IntegrationEvent.fromIntegrationBridgeDto c1Now c2Dto).toOption.getD emptyEvent

/-- A placeholder record (used only as a `getD` default). -/
def emptySAPRecord : SAPRecord :=
  { sapEntityType := none, sapKey := none, entityType := none,
    integrationEventId := none, data := [], sapClient := none,
    companyCode := none, plant := none, warehouse := none, language := none }

/-- The SAP record derived from scenario 1's event. -/
def c2Record : SAPRecord :=
  (SAPRecord.fromIntegrationEventE c2Event (some c2Config)).toOption.getD emptySAPRecord

/-- An error-free remote response echoing the material key. -/
def c2Response : BAPIResult :=
  { RETURN := some (.arr []), MATERIAL := some "MAT001" }

/-- The error message of concrete scenario 2. -/
def c3Message : BapiMessage :=
  { TYPE := some "E", ID := some "M3", NUMBER := some "051",
    MESSAGE := some "Material already exists" }

/-- The remote response of concrete scenario 2. -/
def c3Response : BAPIResult := { RETURN := some (.arr [c3Message]) }

/-- A Warning-severity message. -/
def c4Warning : BapiMessage :=
  { TYPE := some "W", ID := some "M3", NUMBER := some "100",
    MESSAGE := some "Check data" }

/-- A remote response whose message list holds exactly one Warning. -/
def c4Response : BAPIResult := { RETURN := some (.arr [c4Warning]) }

/-- An error-free remote response carrying a customer key. -/
def c4OkResponse : BAPIResult :=
  { RETURN := some (.arr []), CUSTOMER := some "C77" }

/-- An RFC response with one Warning and no errors. -/
def c4RfcResponse : RFCResult := { ET_RETURN := some [c4Warning] }

/-- A raw write response with no `RETURN` structure at all. -/
def c5NoReturn : BAPIResult := {}

/-- A transport oracle answering every call with an empty response. -/
def c6Call : CallEnv := fun _ => .ok {}

/-- A fixed current date. -/
def c6Today : Today := { y := 2024, m := 5, d := 7 }

/-- A concrete adapter environment: valid SAP configuration, benign
transport, no observers. -/
def c7Env : AdapterEnv :=
  { sap := some c2Config, call := fun _ => .ok {}, handlers := [] }

/-- The output of a concrete successful `processEvent` run. -/
def c9Out : ProcessingResult × AdapterStats × List (Option String) :=
  (SAPAdapter.processEvent c7Env c6Today c1Now 5 (some c2Dto) initialStats).toOption.getD
    (ProcessingResult.mkFailure none none "PROCESS" none none {}, initialStats, [])

/-! ## Theorems -/

/-- Characterization of the event validation error list: it is empty
exactly when eventType and entityType are present and valid, eventId is
present, the (already defaulted) timestamp is non-empty, and any present
payload has a data property. -/
lemma eventValidationErrors_isEmpty (et en eid : Option String) (ts : String)
    (p : Option Payload) :
    (eventValidationErrors et en eid ts p).isEmpty
      = ((truthyS et && EventType.isValid (et.getD ""))
          && (truthyS en && EntityType.isValid (en.getD ""))
          && truthyS eid && !(decide (ts = ""))
          && p.all (fun q => q.data.isSome)) := by
  unfold eventValidationErrors
  rcases p with _ | q
  · by_cases hts : ts = "" <;>
      cases h1 : (truthyS et && EventType.isValid (et.getD "")) <;>
      cases h2 : (truthyS en && EntityType.isValid (en.getD "")) <;>
      cases h3 : truthyS eid <;>
        simp [hts, h1, h2, h3]
  · rcases hq : q.data with _ | d <;>
      by_cases hts : ts = "" <;>
      cases h1 : (truthyS et && EventType.isValid (et.getD "")) <;>
      cases h2 : (truthyS en && EntityType.isValid (en.getD "")) <;>
      cases h3 : truthyS eid <;>
        simp [hts, h1, h2, h3, hq]

/-- **C1 (counterexample).**  The claim demands that a raw payload with
`timeStamp` absent (and everything else valid) fails with a
ValidationError; in the code the constructor first replaces an absent
timestamp with `new Date().toISOString()`, so the `Missing timestamp`
check never fires and construction succeeds. -/
theorem c1_counterexample :
    (IntegrationEvent.fromIntegrationBridgeDto c1Now c1NoTimestampDto).isOk = true := by
  decide

/-- **C1 (amended).**  Constructing an `IntegrationEvent` (hence
`fromIntegrationBridgeDto`) fails with a ValidationError iff eventType is
absent or outside the Create/Update/Delete/Sync enumeration, or entityType
is absent or outside the entity enumeration, or eventId is absent, or a
payload is present without a data property.  An absent timestamp never
causes failure: it is defaulted to the (non-empty) current ISO timestamp
before validation runs. -/
theorem c1_amended (now : String) (a : EventCtorArgs) (h : ¬ now = "") :
    (IntegrationEvent.construct now a).isOk
      = ((truthyS a.eventType && EventType.isValid (a.eventType.getD ""))
          && (truthyS a.entityType && EntityType.isValid (a.entityType.getD ""))
          && truthyS a.eventId
          && a.payload.all (fun q => q.data.isSome)) := by
  have hts : ¬ (jsOrStr a.timestamp now = "") := by
    unfold jsOrStr
    rcases a.timestamp with _ | s
    · exact h
    · by_cases hs : s = "" <;> simp [hs, h]
  simp only [IntegrationEvent.construct]
  rw [eventValidationErrors_isEmpty]
  simp only [hts, decide_eq_false_iff_not.mpr hts, Bool.not_false, Bool.and_true]
  cases hc : ((truthyS a.eventType && EventType.isValid (a.eventType.getD ""))
      && (truthyS a.entityType && EntityType.isValid (a.entityType.getD ""))
      && truthyS a.eventId
      && a.payload.all (fun q => q.data.isSome)) <;>
    simp [hc, Except.isOk, Except.toBool]

/-- Witness for C1: the amended characterization applied to fully valid
constructor arguments. -/
theorem c1_amended_witness :
    (IntegrationEvent.construct c1Now c1ValidArgs).isOk = true := by
  rw [c1_amended c1Now c1ValidArgs (by decide)]
  decide

/-- **C2 (evaluation at the failing input).**  On the concrete Create
payload of scenario 1, the entity mapping and key derivation do behave as
claimed (Product ↦ MATERIAL, sapKey `MAT001`), and the record's data bag
is the raw camelCase payload data.  That raw bag is what `createRecord`
hands to `_buildMaterialCreateParameters`, which reads the SAP-caps keys
`MATERIAL`/`BASE_UNIT`: the built bag therefore carries material key `""`
(not `"MAT001"`) and the `BASE_UOM` default `"EA"` even when the payload
supplies a different `baseUnit` — contradicting the claim.  The outcome
half (success, `metadata.objectKey` from an error-free response echoing
`MATERIAL`) does hold. -/
theorem c2_builder_divergence :
    EntityType.getSAPEntityMapping "Product" = "MATERIAL"
    ∧ (IntegrationEvent.fromIntegrationBridgeDto c1Now c2Dto).isOk = true
    ∧ c2Record.sapEntityType = some "MATERIAL"
    ∧ c2Record.sapKey = some (JsValue.vStr "MAT001")
    ∧ c2Record.data = c2Data
    ∧ (buildMaterialCreateParameters c2Data).HEADDATA.MATERIAL = JsValue.vStr ""
    ∧ (buildMaterialCreateParameters c2Data).CLIENTDATA.BASE_UOM = JsValue.vStr "EA"
    ∧ (buildMaterialCreateParameters c2DataKG).CLIENTDATA.BASE_UOM = JsValue.vStr "EA"
    ∧ (ProcessingResult.fromBAPIResult (some "e1") (some "MATERIAL") "CREATE"
        c2Response).success = true
    ∧ (ProcessingResult.fromBAPIResult (some "e1") (some "MATERIAL") "CREATE"
        c2Response).metadata.objectKey = some "MAT001" := by
  decide

/-- **C3.**  Whenever the normalized message list of a raw BAPI response
contains a message of severity Error (`TYPE 'E'`) or Abort (`TYPE 'A'`),
`fromBAPIResult` returns a failure outcome with `retryable = true` whose
error text is `SAP BAPI Error: ` followed by the offending messages
(those with `TYPE` `'E'`/`'A'` or `MESSAGE_TYPE` `'E'`) rendered as
code–number–colon–text and joined by `"; "`. -/
theorem c3_error_normalization (eventId entityType : Option String)
    (operation : String) (r : BAPIResult)
    (h : (bapiMessageList r).any msgErrAbort = true) :
    (ProcessingResult.fromBAPIResult eventId entityType operation r).success = false
    ∧ (ProcessingResult.fromBAPIResult eventId entityType operation r).retryable = true
    ∧ (ProcessingResult.fromBAPIResult eventId entityType operation r).error
        = some ("SAP BAPI Error: " ++ String.intercalate "; "
            (((bapiMessageList r).filter bapiOffending).map formatBAPIMsg)) := by
  have hOff : (bapiMessageList r).any bapiOffending = true := by
    simp only [List.any_eq_true] at h ⊢
    obtain ⟨m, hm, hmE⟩ := h
    refine ⟨m, hm, ?_⟩
    unfold msgErrAbort at hmE
    unfold bapiOffending
    rcases Bool.or_eq_true_iff.mp hmE with h1 | h1 <;> simp [h1]
  simp [ProcessingResult.fromBAPIResult, hOff, ProcessingResult.mkFailure,
    ProcessingResult.construct, optStr]

/-- Witness for C3: concrete scenario 2 — the single message
`TYPE 'E', ID 'M3', NUMBER '051', MESSAGE 'Material already exists'`
yields `success = false`, `error = "SAP BAPI Error: M3051: Material
already exists"`, `retryable = true`. -/
theorem c3_error_normalization_witness :
    (ProcessingResult.fromBAPIResult (some "e1") (some "MATERIAL") "CREATE"
        c3Response).success = false
    ∧ (ProcessingResult.fromBAPIResult (some "e1") (some "MATERIAL") "CREATE"
        c3Response).retryable = true
    ∧ (ProcessingResult.fromBAPIResult (some "e1") (some "MATERIAL") "CREATE"
        c3Response).error = some "SAP BAPI Error: M3051: Material already exists" := by
  have h := c3_error_normalization (some "e1") (some "MATERIAL") "CREATE"
    c3Response (by decide)
  exact ⟨h.1, h.2.1, by rw [h.2.2]; decide⟩

/-- **C4 (counterexample).**  The claim says a success outcome attaches
Warning-severity messages separately in `metadata.warnings`; but
`fromBAPIResult` — the normalizer of every service path — never sets a
`warnings` entry: a response with exactly one Warning classifies as
success with `metadata.warnings` absent. -/
theorem c4_counterexample :
    (ProcessingResult.fromBAPIResult (some "e1") (some "MATERIAL") "CREATE"
        c4Response).success = true
    ∧ (ProcessingResult.fromBAPIResult (some "e1") (some "MATERIAL") "CREATE"
        c4Response).metadata.warnings = none := by
  decide

/-- The `a || b || ...` object-key chain equals "first truthy field wins,
else the last field". -/
lemma objectKeyOf_eq_find (r : BAPIResult) :
    objectKeyOf r
      = (([r.MATERIAL, r.CUSTOMER, r.VENDOR, r.SALESDOCUMENT,
          r.PURCHASEORDER, r.DOCUMENT_NUMBER].find? truthyS).getD
            r.DOCUMENT_NUMBER) := by
  unfold objectKeyOf jsOrS
  cases h1 : truthyS r.MATERIAL <;> cases h2 : truthyS r.CUSTOMER <;>
    cases h3 : truthyS r.VENDOR <;> cases h4 : truthyS r.SALESDOCUMENT <;>
    cases h5 : truthyS r.PURCHASEORDER <;> cases h6 : truthyS r.DOCUMENT_NUMBER <;>
    simp [List.find?, h1, h2, h3, h4, h5, h6]

/-- **C4 (amended).**  A response with no offending message (`TYPE`
`'E'`/`'A'` or `MESSAGE_TYPE` `'E'`) normalizes to success;
`fromBAPIResult` places the first non-empty key among MATERIAL, CUSTOMER,
VENDOR, SALESDOCUMENT, PURCHASEORDER, DOCUMENT_NUMBER in
`metadata.objectKey` and attaches the full message list (warnings
included, not separated) in `metadata.bapiMessages`; Warning-severity
messages are separated into `metadata.warnings` only by the RFC-path
normalizer `fromRFCResult`, which attaches no object key. -/
theorem c4_amended (eventId entityType : Option String) (operation : String)
    (r : BAPIResult) (r2 : RFCResult)
    (h : (bapiMessageList r).any bapiOffending = false)
    (h2 : (r2.ET_RETURN.getD []).any msgErrAbort = false) :
    (ProcessingResult.fromBAPIResult eventId entityType operation r).success = true
    ∧ (ProcessingResult.fromBAPIResult eventId entityType operation r).metadata.objectKey
        = (([r.MATERIAL, r.CUSTOMER, r.VENDOR, r.SALESDOCUMENT,
            r.PURCHASEORDER, r.DOCUMENT_NUMBER].find? truthyS).getD
              r.DOCUMENT_NUMBER)
    ∧ (ProcessingResult.fromBAPIResult eventId entityType operation r).metadata.bapiMessages
        = some (bapiMessageList r)
    ∧ (ProcessingResult.fromBAPIResult eventId entityType operation r).metadata.warnings = none
    ∧ (ProcessingResult.fromRFCResult eventId entityType operation r2).success = true
    ∧ (ProcessingResult.fromRFCResult eventId entityType operation r2).metadata.warnings
        = some ((r2.ET_RETURN.getD []).filter msgWarning)
    ∧ (ProcessingResult.fromRFCResult eventId entityType operation r2).metadata.objectKey
        = none := by
  have hrfc : (match r2.ET_RETURN with
      | none => false
      | some l => l.any msgErrAbort) = false := by
    rcases hET : r2.ET_RETURN with _ | l
    · rfl
    · simpa [hET] using h2
  refine ⟨?_, ?_, ?_, ?_, ?_, ?_, ?_⟩ <;>
    simp [ProcessingResult.fromBAPIResult, ProcessingResult.fromRFCResult, h,
      hrfc, ProcessingResult.mkSuccess, ProcessingResult.construct,
      objectKeyOf_eq_find r]

/-- Witness for C4 (amended): an error-free response carrying a customer
key, and an RFC response with one Warning. -/
theorem c4_amended_witness :
    (ProcessingResult.fromBAPIResult (some "e2") (some "CUSTOMER") "CREATE"
        c4OkResponse).success = true
    ∧ (ProcessingResult.fromBAPIResult (some "e2") (some "CUSTOMER") "CREATE"
        c4OkResponse).metadata.objectKey = some "C77"
    ∧ (ProcessingResult.fromRFCResult (some "e2") (some "CUSTOMER") "CREATE"
        c4RfcResponse).metadata.warnings = some [c4Warning] := by
  have h := c4_amended (some "e2") (some "CUSTOMER") "CREATE" c4OkResponse
    c4RfcResponse (by decide) (by decide)
  exact ⟨h.1, by rw [h.2.1]; decide, by rw [h.2.2.2.2.2.1]; decide⟩

/-- **C5 (counterexample).**  The claim says the commit is issued exactly
when the caller did not opt out and the message list has no Error/Abort
message.  For a write response with no `RETURN` structure the message list
is empty — no Error/Abort message — and the caller did not opt out, yet
`executeBAPI` issues no commit, because its condition additionally
requires `result.RETURN` to be present. -/
theorem c5_counterexample :
    bapiMessageList c5NoReturn = []
    ∧ ((none : Option Bool) ≠ some false)
    ∧ (executeBAPIAfter none c5NoReturn false).2 = false := by
  refine ⟨rfl, by decide, rfl⟩

/-- **C5 (amended).**  `executeBAPI` issues the follow-up
`BAPI_TRANSACTION_COMMIT` exactly when the caller did not opt out
(`commitWork !== false`), the raw response carries a `RETURN` structure,
and that structure contains no `TYPE` `'E'`/`'A'` message; and the
returned result is always the primary result — a failing commit call
(swallowed by the surrounding try/catch) never changes it. -/
theorem c5_commit_behaviour (commitWork : Option Bool) (r : BAPIResult)
    (commitFails : Bool) :
    (executeBAPIAfter commitWork r commitFails).1 = r
    ∧ ((executeBAPIAfter commitWork r commitFails).2 = true
        ↔ (commitWork ≠ some false
            ∧ ∃ ms, r.RETURN = some ms ∧ hasBAPIErrors ms = false)) := by
  constructor
  · unfold executeBAPIAfter
    split <;> rfl
  · unfold executeBAPIAfter commitCondition
    rcases hR : r.RETURN with _ | ms
    · by_cases hW : commitWork = some false <;> simp [hR, hW, bne_iff_ne]
    · by_cases hW : commitWork = some false <;>
        cases hE : hasBAPIErrors ms <;>
        simp [hR, hW, hE, bne_iff_ne]

/-- `String.padStart` pads to exactly the requested length. -/
lemma padStart_length (s : String) (n : Nat) (c : Char) (h : s.length ≤ n) :
    (padStart s n c).length = n := by
  unfold padStart
  simp [String.length_append]
  omega

/-- `fromBAPIResult` stamps its operation argument on both branches. -/
lemma fromBAPIResult_operation (eventId entityType : Option String)
    (operation : String) (r : BAPIResult) :
    (ProcessingResult.fromBAPIResult eventId entityType operation r).operation
      = some operation := by
  cases hOff : (bapiMessageList r).any bapiOffending <;>
    simp [ProcessingResult.fromBAPIResult, hOff, ProcessingResult.mkFailure,
      ProcessingResult.mkSuccess, ProcessingResult.construct]

/-- Every branch of `updateRecord` — material path (whether the transport
returns or throws), missing-builder paths, unsupported path — yields an
outcome stamped with the UPDATE operation. -/
lemma updateRecord_operation (call : CallEnv) (entityType : String)
    (sapKey : Option JsValue) (data : JsObject) :
    (SAPRFCService.updateRecord call entityType sapKey data).operation
      = some "UPDATE" := by
  simp only [SAPRFCService.updateRecord]
  split_ifs <;>
    rcases hc : call "BAPI_MATERIAL_SAVEDATA" with e | r <;>
      simp [hc, fromBAPIResult_operation, ProcessingResult.mkFailure,
        ProcessingResult.construct]

/-- **C6.**  For every entity type and key: a Delete request without an
explicit physical-deletion option delegates to `updateRecord` with a data
bag carrying `DELETION_FLAG 'X'` and `DELETION_DATE` set to the current
date in compact 8-digit YYYYMMDD form (8 digits whenever the date
components render with at most 4/2/2 digits); for MATERIAL that bag lands
in the update parameter `CLIENTDATA`, and every update outcome is stamped
UPDATE.  With physical deletion explicitly requested, the result is a
failure outcome whose error names the unsupported entity type. -/
theorem c6_delete_resolution (call : CallEnv) (t : Today) (entityType : String)
    (sapKey : Option JsValue) (opts : DeleteOptions)
    (hy : (Nat.repr t.y).length ≤ 4) (hm : (Nat.repr t.m).length ≤ 2)
    (hd : (Nat.repr t.d).length ≤ 2) :
    (opts.flagForDeletion ≠ some false →
      SAPRFCService.deleteRecord call t entityType sapKey opts
        = SAPRFCService.updateRecord call entityType sapKey (deletionData t))
    ∧ getField (deletionData t) "DELETION_FLAG" = some (JsValue.vStr "X")
    ∧ getField (deletionData t) "DELETION_DATE"
        = some (JsValue.vStr (sapCompactDate t))
    ∧ (sapCompactDate t).length = 8
    ∧ (buildMaterialUpdateParameters sapKey (deletionData t)).CLIENTDATA
        = deletionData t
    ∧ (∀ et2 : String,
        (SAPRFCService.updateRecord call et2 sapKey (deletionData t)).operation
          = some "UPDATE")
    ∧ (opts.flagForDeletion = some false →
        (SAPRFCService.deleteRecord call t entityType sapKey opts).success = false
        ∧ (SAPRFCService.deleteRecord call t entityType sapKey opts).error
            = some ("Physical deletion not supported for entity type: "
                ++ entityType)) := by
  refine ⟨?_, rfl, rfl, ?_, rfl, ?_, ?_⟩
  · intro hflag
    unfold SAPRFCService.deleteRecord
    simp [bne_iff_ne, hflag]
  · unfold sapCompactDate
    simp [String.length_append, padStart_length _ _ _ hy,
      padStart_length _ _ _ hm, padStart_length _ _ _ hd]
  · intro et2
    exact updateRecord_operation call et2 sapKey (deletionData t)
  · intro hflag
    unfold SAPRFCService.deleteRecord
    simp [hflag, ProcessingResult.mkFailure, ProcessingResult.construct, optStr]

/-- Witness for C6: a concrete date, material entity and benign
transport. -/
theorem c6_delete_resolution_witness :
    getField (deletionData c6Today) "DELETION_FLAG" = some (JsValue.vStr "X")
    ∧ (sapCompactDate c6Today).length = 8
    ∧ SAPRFCService.deleteRecord c6Call c6Today "MATERIAL"
        (some (JsValue.vStr "M1")) {}
      = SAPRFCService.updateRecord c6Call "MATERIAL"
          (some (JsValue.vStr "M1")) (deletionData c6Today) := by
  have h := c6_delete_resolution c6Call c6Today "MATERIAL"
    (some (JsValue.vStr "M1")) {} (by decide) (by decide) (by decide)
  exact ⟨h.2.1, h.2.2.2.1, h.1 (by decide)⟩

/-- **C7 (counterexample).**  The claim says `processEvent` never raises
for any input, including `null`.  For a `null` raw payload the try block
throws as expected, but the catch block itself evaluates
`eventData.eventId` and re-throws a `TypeError`: `processEvent` raises
instead of returning an outcome. -/
theorem c7_counterexample :
    SAPAdapter.processEvent c7Env c6Today c1Now 5 none initialStats
      = .error nullDtoLogError := rfl

/-- **C7 (amended).**  For every non-null raw payload object — whatever
the configuration, the transport behaviour and the registered observers —
`processEvent` returns an outcome (every error path is caught into a
failure result), and the returned outcome and statistics are independent
of the observers: a throwing observer only contributes to the log. -/
theorem c7_no_throw_on_objects (env : AdapterEnv) (t : Today) (now : String)
    (elapsed : Int) (dto : BridgeDto) (stats : AdapterStats) :
    (∃ out, SAPAdapter.processEvent env t now elapsed (some dto) stats = .ok out)
    ∧ ∀ hs : List (Except String Unit),
        resultAndStats (SAPAdapter.processEvent
            { env with handlers := hs } t now elapsed (some dto) stats)
          = resultAndStats
              (SAPAdapter.processEvent env t now elapsed (some dto) stats) := by
  have hatt : ∀ hs : List (Except String Unit),
      attemptProcess { env with handlers := hs } t now (some dto)
        = attemptProcess env t now (some dto) := fun _ => rfl
  constructor
  · rcases hA : attemptProcess env t now (some dto) with e | r
    · exact ⟨((ProcessingResult.mkFailure (jsOrS dto.eventId dto.uEventId)
          (jsOrS dto.entityType dto.uEntityType) "PROCESS" (some e) none
          {}).setProcessingTime elapsed, updateStats stats elapsed false, []),
        by simp [SAPAdapter.processEvent, hA]⟩
    · exact ⟨(r.setProcessingTime elapsed, updateStats stats elapsed r.success,
          notifyEventHandlers env.handlers),
        by simp [SAPAdapter.processEvent, hA]⟩
  · intro hs
    rcases hA : attemptProcess env t now (some dto) with e | r <;>
      simp [SAPAdapter.processEvent, hatt hs, hA, resultAndStats, Except.map]

/-- **C8 (counterexample).**  The claim says `retryable` defaults to
`false` on a successful outcome and is never `true` when `success` is
`true`; but the raw constructor's default is `retryable = true`
unconditionally, so a successful outcome constructed without an explicit
`retryable` carries `retryable = true`. -/
theorem c8_counterexample :
    (ProcessingResult.construct { success := true }).success = true
    ∧ (ProcessingResult.construct { success := true }).retryable = true :=
  ⟨rfl, rfl⟩

/-- **C8 (amended).**  The `success` factory always produces
`retryable = false`; the `failure` factory defaults to `retryable = true`;
and both normalizers keep the invariant `retryable = ¬success`.  Only the
raw constructor defaults `retryable` to `true` regardless of `success`. -/
theorem c8_retryable_factories (eventId entityType : Option String)
    (operation : String) (sapResult : Option SapRaw) (error : Option String)
    (metadata : Metadata) (r : BAPIResult) (r2 : RFCResult) :
    (ProcessingResult.mkSuccess eventId entityType operation sapResult
        metadata).success = true
    ∧ (ProcessingResult.mkSuccess eventId entityType operation sapResult
        metadata).retryable = false
    ∧ (ProcessingResult.mkFailure eventId entityType operation error none
        metadata).success = false
    ∧ (ProcessingResult.mkFailure eventId entityType operation error none
        metadata).retryable = true
    ∧ (ProcessingResult.fromBAPIResult eventId entityType operation r).retryable
        = !(ProcessingResult.fromBAPIResult eventId entityType operation r).success
    ∧ (ProcessingResult.fromRFCResult eventId entityType operation r2).retryable
        = !(ProcessingResult.fromRFCResult eventId entityType operation r2).success := by
  refine ⟨rfl, rfl, rfl, rfl, ?_, ?_⟩
  · cases hOff : (bapiMessageList r).any bapiOffending <;>
      simp [ProcessingResult.fromBAPIResult, hOff, ProcessingResult.mkFailure,
        ProcessingResult.mkSuccess, ProcessingResult.construct]
  · rcases hET : r2.ET_RETURN with _ | l
    · simp [ProcessingResult.fromRFCResult, hET, ProcessingResult.mkSuccess,
        ProcessingResult.construct]
    · cases hAny : l.any msgErrAbort <;>
        simp [ProcessingResult.fromRFCResult, hET, hAny,
          ProcessingResult.mkFailure, ProcessingResult.mkSuccess,
          ProcessingResult.construct]

/-- **C9.**  The statistics invariant — `eventsProcessed =
eventsSuccessful + eventsFailed`, and `averageProcessingTime =
totalProcessingTime / eventsProcessed` once anything was processed —
holds initially, is preserved by `_updateStats`, holds after any sequence
of completed updates, and every completed `processEvent` call (success,
validation-failure and exception paths alike) increments
`eventsProcessed` by exactly one while preserving the invariant. -/
theorem c9_stats_invariant :
    statsInvariant initialStats
    ∧ (∀ (s : AdapterStats) (pt : Int) (b : Bool),
        statsInvariant s → statsInvariant (updateStats s pt b))
    ∧ (∀ steps : List (Int × Bool),
        statsInvariant (steps.foldl (fun s p => updateStats s p.1 p.2) initialStats))
    ∧ (∀ (env : AdapterEnv) (t : Today) (now : String) (elapsed : Int)
        (dto? : Option BridgeDto) (stats : AdapterStats)
        (out : ProcessingResult × AdapterStats × List (Option String)),
        SAPAdapter.processEvent env t now elapsed dto? stats = .ok out →
          out.2.1.eventsProcessed = stats.eventsProcessed + 1
          ∧ (statsInvariant stats → statsInvariant out.2.1)) := by
  have hinit : statsInvariant initialStats := by
    constructor
    · rfl
    · intro h
      exact absurd h (by decide)
  have hpres : ∀ (s : AdapterStats) (pt : Int) (b : Bool),
      statsInvariant s → statsInvariant (updateStats s pt b) := by
    intro s pt b hs
    obtain ⟨h1, _h2⟩ := hs
    constructor
    · cases b <;> simp [updateStats] <;> omega
    · intro _
      rfl
  refine ⟨hinit, hpres, ?_, ?_⟩
  · intro steps
    have haux : ∀ s : AdapterStats, statsInvariant s →
        statsInvariant (steps.foldl (fun s p => updateStats s p.1 p.2) s) := by
      induction steps with
      | nil => exact fun s hs => hs
      | cons p ps ih =>
        intro s hs
        exact ih _ (hpres s p.1 p.2 hs)
    exact haux initialStats hinit
  · intro env t now elapsed dto? stats out h
    rcases hA : attemptProcess env t now dto? with e | r
    · simp only [SAPAdapter.processEvent, hA] at h
      rcases dto? with _ | dto
      · exact absurd h (by simp)
      · simp only [Except.ok.injEq] at h
        subst h
        exact ⟨rfl, fun hs => hpres stats elapsed false hs⟩
    · simp only [SAPAdapter.processEvent, hA] at h
      simp only [Except.ok.injEq] at h
      subst h
      exact ⟨rfl, fun hs => hpres stats elapsed r.success hs⟩

/-- Witness for C9: a concrete successful run from the fresh statistics
increments `eventsProcessed` from 0 to 1. -/
theorem c9_stats_invariant_witness :
    statsInvariant initialStats ∧ c9Out.2.1.eventsProcessed = 1 := by
  have h := c9_stats_invariant
  refine ⟨h.1, ?_⟩
  have h4 := (h.2.2.2 c7Env c6Today c1Now 5 (some c2Dto) initialStats c9Out
    (by rfl)).1
  simpa [initialStats] using h4

/-- The fold that applies the masking step over a key list, characterized
pointwise. -/
lemma sanitize_foldl_char (ks : List String) (acc : JsObject) :
    ks.foldl (fun a k => if isSensitiveKey k then sanitizeSet a k else a) acc
      = acc.map (fun p =>
          if p.1 ∈ ks ∧ isSensitiveKey p.1 = true
          then (p.1, JsValue.vStr "***") else p) := by
  induction ks generalizing acc with
  | nil => simp
  | cons k ks ih =>
    rw [List.foldl_cons, ih]
    by_cases hk : isSensitiveKey k = true
    · simp only [hk, if_true]
      unfold sanitizeSet
      rw [List.map_map]
      congr 1
      funext p
      by_cases hpk : p.1 = k
      · simp [Function.comp, hpk, hk, List.mem_cons, ite_self]
      · simp [Function.comp, hpk, List.mem_cons]
    · simp only [hk, if_false]
      congr 1
      funext p
      by_cases hpk : p.1 = k
      · simp [hpk, hk, List.mem_cons]
      · simp [hpk, List.mem_cons]

/-- **C10.**  `_sanitizeParameters` maps the parameter bag pointwise: a
key whose lower-cased text contains one of `passwd`, `password`, `pwd`,
`secret`, `token` is rebound to the literal `'***'`; every other entry is
kept unchanged — in particular the keys are exactly those of the input
(the embedding is pure, mirroring the source's spread-copy which leaves
the input object untouched). -/
theorem c10_sanitize (ps : JsObject) :
    sanitizeParameters ps
      = ps.map (fun p =>
          if isSensitiveKey p.1 = true then (p.1, JsValue.vStr "***") else p) := by
  unfold sanitizeParameters
  rw [sanitize_foldl_char]
  apply List.map_congr_left
  intro p hp
  have hmem : p.1 ∈ ps.map Prod.fst := List.mem_map_of_mem _ hp
  by_cases hs : isSensitiveKey p.1 = true <;> simp [hs, hmem]

end SapAdapterModel
